import Mathlib

/-!
Shallow embedding of the MCP client in `src/utils/mcp_client.py`
(class `MCPClient`): JSON values, the client's mutable state
(`process`, `rpc_id_counter`), the poll loop of `call_tool`, the
response normalization, `cleanup`, and `initialize`.

Python values decoded from JSON lines are modelled by the inductive
type `JSON` (numbers as integers; floats do not occur in the claims).
Python's built-in `str()` coercion, used only in the normalizer's
last-resort branch, is external library behaviour and is passed as a
parameter `pystr : JSON → String`.

The inbound stdout stream is modelled as a `List (Option JSON)`: each
element is the value `_read_json_line` produces for one poll attempt —
`none` for no line / blank line / malformed JSON, `some j` for a
decoded value.  An exhausted list behaves like end-of-file, where
`readline` returns the empty string and `_read_json_line` yields
`None` forever.
-/

/-- JSON values as decoded by `json.loads` (numbers restricted to integers). -/
inductive JSON where
  | null : JSON
  | bool : Bool → JSON
  | num : Int → JSON
  | str : String → JSON
  | arr : List JSON → JSON
  | obj : List (String × JSON) → JSON

/-- Python truthiness (`if not msg`) of a decoded JSON value. -/
def JSON.falsy : JSON → Bool
  | .null => true
  | .bool b => !b
  | .num n => n == 0
  | .str s => s == ""
  | .arr l => l.isEmpty
  | .obj l => l.isEmpty

/-- Dict key lookup: `d.get(k)` / `d[k]` / `k in d` on a decoded dict.
On a non-dict value it returns `none` (callers that would raise
`AttributeError` in Python are modelled case by case). -/
def JSON.get : JSON → String → Option JSON
  | .obj kvs, k => (kvs.find? (fun p => p.1 == k)).map (·.2)
  | _, _ => none

/-- Python `==` between a decoded JSON value and an int (`msg.get("id") == call_id`):
ints compare by value, bools compare as 0/1, everything else is unequal. -/
def id_matches : JSON → Int → Bool
  | .num n, i => n == i
  | .bool b, i => (if b then (1 : Int) else 0) == i
  | _, _ => false

/-- Test `msg.get("id") == call_id` on a message: an absent `id` key
(Python `None`) never equals an int. -/
def JSON.get_id (m : JSON) (i : Int) : Bool :=
  match m.get "id" with
  | some v => id_matches v i
  | none => false

/-- State of `MCPClient` relevant to the claims: whether `self.process`
holds a live handle, and `self.rpc_id_counter`. -/
structure ClientState where
  process : Bool
  rpc_id_counter : Int
deriving DecidableEq

/-- Fresh client as built by `MCPClient.__init__`: `process = None`,
`rpc_id_counter = 100`. -/
def new_client : ClientState := ⟨false, 100⟩

/-- Model of `MCPClient._read_json_line`: `none` when the process is
gone, on end-of-stream (`line` is `none`), on a blank line, or when
`json.loads` fails (the `parse` oracle returns `none`); otherwise the
decoded value.  `parse` stands for Python's `json.loads`. -/
def read_json_line (parse : String → Option JSON) (proc_live : Bool)
    (line : Option String) : Option JSON :=
  if proc_live = false then none
  else
    match line with
    | none => none
    | some l => if l.trim = "" then none else parse l.trim

/-- Outcome of the poll loop in `call_tool` (lines 193–207). -/
inductive WaitRes where
  | found : JSON → WaitRes
  | timeout : WaitRes
  | attrError : WaitRes

/-- Poll loop of `call_tool`: each iteration reads one stream element
and costs one attempt; a falsy value (`if not msg`) is skipped; a
truthy dict is compared by `id`; a truthy non-dict raises
`AttributeError` at `msg.get`.  Fuel is the remaining attempt budget. -/
def wait_loop (call_id : Int) : Nat → List (Option JSON) → WaitRes
  | 0, _ => .timeout
  | fuel + 1, [] => wait_loop call_id fuel []
  | fuel + 1, msg :: rest =>
    match msg with
    | none => wait_loop call_id fuel rest
    | some j =>
      if j.falsy then wait_loop call_id fuel rest
      else
        match j with
        | .obj kvs =>
          if (JSON.obj kvs).get_id call_id then .found (.obj kvs)
          else wait_loop call_id fuel rest
        | _ => .attrError

/-- Attempt budget of `call_tool`'s poll loop (`max_attempts = 50`). -/
def max_attempts : Nat := 50

/-- Per-item extraction of the normalizer (lines 236–247): a dict's
`text` field, else the `text` field of its dict-valued `raw` field,
else a plain string itself, else `str(item)` (the `pystr` parameter). -/
def item_piece (pystr : JSON → String) : JSON → JSON
  | .obj kvs =>
    match (JSON.obj kvs).get "text" with
    | some t => t
    | none =>
      match (JSON.obj kvs).get "raw" with
      | some (.obj rkvs) =>
        match (JSON.obj rkvs).get "text" with
        | some t => t
        | none => .str (pystr (.obj kvs))
      | _ => .str (pystr (.obj kvs))
  | .str s => .str s
  | j => .str (pystr j)

/-- Value appended to `combined_text` viewed as a Python string;
`none` when it is not a string, in which case `"\n\n".join` raises
`TypeError`. -/
def as_str : JSON → Option String
  | .str s => some s
  | _ => none

/-- Join step `"\n\n".join(combined_text)` over the extracted pieces;
`none` models the `TypeError` raised when a piece is not a string. -/
def join_content (pystr : JSON → String) (items : List JSON) : Option String :=
  ((items.map (item_piece pystr)).mapM as_str).map (String.intercalate "\n\n")

/-- Result of one `call_tool` invocation.  Exceptions raised by the
Python code become dedicated constructors; `ok v` is a normal return
(a returned Python `str` is `ok (.str s)`). -/
inductive CallRes where
  | ok : JSON → CallRes
  | notInitialized : CallRes
  | sendFailed : CallRes
  | timeout : CallRes
  | attrError : CallRes
  | typeError : CallRes
  | toolError : JSON → CallRes
  | invalidResponse : CallRes

/-- Response handling of `call_tool` after a matched message
(lines 213–257): `error` field present raises a tool error (reading
`error["message"]` on a non-dict raises `AttributeError`); missing
`result` raises invalid-response; a dict result with a `content` key
holding a non-empty list is normalized and joined; an empty or
non-list `content` is returned as is; otherwise the result itself. -/
def handle_response (pystr : JSON → String) (response : JSON) : CallRes :=
  match response.get "error" with
  | some e =>
    match e with
    | .obj _ => .toolError e
    | _ => .attrError
  | none =>
    match response.get "result" with
    | none => .invalidResponse
    | some result =>
      match result with
      | .obj _ =>
        match result.get "content" with
        | some content =>
          match content with
          | .arr items =>
            if items.length > 0 then
              match join_content pystr items with
              | some s => .ok (.str s)
              | none => .typeError
            else .ok content
          | _ => .ok content
        | none => .ok result
      | _ => .ok result

/-- RPC envelope sent by `call_tool` (lines 169–177). -/
def rpc_call_msg (call_id : Int) (tool_name : String) (arguments : JSON) : JSON :=
  .obj [("jsonrpc", .str "2.0"), ("id", .num call_id),
        ("method", .str "tools/call"),
        ("params", .obj [("name", .str tool_name), ("arguments", arguments)])]

/-- Environment of one `call_tool` invocation: the tool name and
arguments, whether the stdin write succeeds, and the inbound stream. -/
structure CallInput where
  tool_name : String
  arguments : JSON
  send_ok : Bool
  stream : List (Option JSON)

/-- Observable outcome of one `call_tool` invocation: the client state
afterwards, the messages written to stdin, the request identifier the
call allocated (`none` when it failed before allocation), and the
return value or exception. -/
structure CallOutput where
  state : ClientState
  sent : List JSON
  allocated : Option Int
  result : CallRes

/-- Model of `MCPClient.call_tool`: fail if no process; pre-increment
`rpc_id_counter` and take the new value as the call id; send the
envelope (a failed write raises after the id was allocated); poll with
a budget of 50 attempts; then handle the matched response. -/
def call_tool (pystr : JSON → String) (s : ClientState) (inp : CallInput) : CallOutput :=
  if s.process = false then ⟨s, [], none, .notInitialized⟩
  else
    let call_id := s.rpc_id_counter + 1
    let s' : ClientState := { s with rpc_id_counter := call_id }
    let msg := rpc_call_msg call_id inp.tool_name inp.arguments
    if inp.send_ok = false then ⟨s', [], some call_id, .sendFailed⟩
    else
      match wait_loop call_id max_attempts inp.stream with
      | .timeout => ⟨s', [msg], some call_id, .timeout⟩
      | .attrError => ⟨s', [msg], some call_id, .attrError⟩
      | .found m => ⟨s', [msg], some call_id, handle_response pystr m⟩

/-- Model of `MCPClient.cleanup` (lines 259–273): every exit path of
the `try/except/finally` sets `self.process = None` and raises
nothing; the counter is untouched. -/
def cleanup (s : ClientState) : ClientState := { s with process := false }

/-- Outcome of the poll loop in `MCPClient.initialize` (lines 94–107):
a `tools/list` result (id 1 with `result`), a server error envelope
(id 1 with `error`), an `AttributeError` on a truthy non-dict message
or a non-dict `result`, or an exhausted 20-attempt budget. -/
inductive InitWait where
  | tools : JSON → InitWait
  | errEnvelope : JSON → InitWait
  | attrError : InitWait
  | exhausted : InitWait

/-- Poll loop of `initialize`: every iteration costs one attempt; a
falsy read is skipped; a truthy dict whose `id` equals 1 breaks with
`msg["result"].get("tools", [])` when `result` is present, raises on
an `error` envelope, and any other dict is skipped; a truthy non-dict
raises `AttributeError` at `msg.get`. -/
def init_wait_loop : Nat → List (Option JSON) → InitWait
  | 0, _ => .exhausted
  | fuel + 1, [] => init_wait_loop fuel []
  | fuel + 1, msg :: rest =>
    match msg with
    | none => init_wait_loop fuel rest
    | some j =>
      if j.falsy then init_wait_loop fuel rest
      else
        match j with
        | .obj kvs =>
          let m := JSON.obj kvs
          if m.get_id 1 then
            match m.get "result" with
            | some r =>
              match r with
              | .obj _ => .tools ((r.get "tools").getD (.arr []))
              | _ => .attrError
            | none =>
              match m.get "error" with
              | some e => .errEnvelope e
              | none => init_wait_loop fuel rest
          else init_wait_loop fuel rest
        | _ => .attrError

/-- Model of `MCPClient.initialize` (lines 39–120): spawn the child
process (a spawn failure is `spawn_ok = false`), send the three
handshake messages, poll 20 attempts for the `tools/list` reply.  On
success the live process handle is kept and the tools are returned
(`some tools`); on any failure the `except` block kills the process,
resets the handle to `None` and re-raises (`none`).  The id counter is
never touched. -/
def init_connection (s : ClientState) (spawn_ok : Bool)
    (stream : List (Option JSON)) : ClientState × Option JSON :=
  if spawn_ok = false then ({ s with process := false }, none)
  else
    match init_wait_loop 20 stream with
    | .tools t => ({ s with process := true }, some t)
    | _ => ({ s with process := false }, none)

/-- Request identifiers allocated by a sequence of `call_tool`
invocations on one client, threading the state through the calls.
An invocation that fails the process check allocates no identifier. -/
def alloc_run (pystr : JSON → String) (s : ClientState) :
    List CallInput → List (Option Int)
  | [] => []
  | inp :: rest =>
    let out := call_tool pystr s inp
    out.allocated :: alloc_run pystr out.state rest

/-- Predicate on one poll read: the loop body skips it and moves on —
no line, a falsy value, or a dict whose `id` does not match. -/
def skipped (call_id : Int) : Option JSON → Bool
  | none => true
  | some (.obj kvs) => !(JSON.obj kvs).get_id call_id
  | some j => j.falsy

/-- Identifier list actually allocated over a run. -/
def alloc_ids (pystr : JSON → String) (s : ClientState) (inps : List CallInput) : List Int :=
  (alloc_run pystr s inps).reduceOption

theorem get_id_shape (m : JSON) (cid : Int) (h : m.get_id cid = true) :
    m.falsy = false ∧ ∃ kvs, m = JSON.obj kvs := by
  cases m with
  | null => simp [JSON.get_id, JSON.get] at h
  | bool b => simp [JSON.get_id, JSON.get] at h
  | num n => simp [JSON.get_id, JSON.get] at h
  | str t => simp [JSON.get_id, JSON.get] at h
  | arr l => simp [JSON.get_id, JSON.get] at h
  | obj kvs =>
    refine ⟨?_, kvs, rfl⟩
    cases kvs with
    | nil => simp [JSON.get_id, JSON.get] at h
    | cons a l => simp [JSON.falsy]

theorem wait_loop_found (cid : Int) (fuel : Nat) (kvs : List (String × JSON))
    (rest : List (Option JSON)) (h : (JSON.obj kvs).get_id cid = true) :
    wait_loop cid (fuel + 1) (some (JSON.obj kvs) :: rest) = .found (JSON.obj kvs) := by
  have hf := (get_id_shape _ _ h).1
  simp [wait_loop, hf, h]

theorem skipped_of_falsy (cid : Int) (j : JSON) (hf : j.falsy = true) :
    skipped cid (some j) = true := by
  cases j with
  | null => simp [skipped, JSON.falsy]
  | bool b => simpa [skipped] using hf
  | num n => simpa [skipped] using hf
  | str t => simpa [skipped] using hf
  | arr l => simpa [skipped] using hf
  | obj kvs =>
    cases kvs with
    | nil => simp [skipped, JSON.get_id, JSON.get]
    | cons a l => simp [JSON.falsy] at hf

theorem wait_loop_cons_skip (cid : Int) (fuel : Nat) (x : Option JSON)
    (rest : List (Option JSON)) (hx : skipped cid x = true) :
    wait_loop cid (fuel + 1) (x :: rest) = wait_loop cid fuel rest := by
  cases x with
  | none => simp [wait_loop]
  | some j =>
    cases j with
    | null => simp [wait_loop, JSON.falsy]
    | bool b =>
      have hf : (JSON.bool b).falsy = true := by simpa [skipped] using hx
      simp [wait_loop, hf]
    | num n =>
      have hf : (JSON.num n).falsy = true := by simpa [skipped] using hx
      simp [wait_loop, hf]
    | str t =>
      have hf : (JSON.str t).falsy = true := by simpa [skipped] using hx
      simp [wait_loop, hf]
    | arr l =>
      have hf : (JSON.arr l).falsy = true := by simpa [skipped] using hx
      simp [wait_loop, hf]
    | obj kvs =>
      have hid : (JSON.obj kvs).get_id cid = false := by simpa [skipped] using hx
      by_cases hf : (JSON.obj kvs).falsy = true
      · simp [wait_loop, hf]
      · simp [wait_loop, hf, hid]

theorem wait_loop_skip (cid : Int) (noise : List (Option JSON))
    (h : ∀ x ∈ noise, skipped cid x = true) :
    ∀ (fuel : Nat) (stream : List (Option JSON)),
      wait_loop cid (fuel + noise.length) (noise ++ stream) = wait_loop cid fuel stream := by
  induction noise with
  | nil => intro fuel stream; simp
  | cons x xs ih =>
    intro fuel stream
    have hx : skipped cid x = true := h x (by simp)
    have hxs : ∀ y ∈ xs, skipped cid y = true := fun y hy => h y (by simp [hy])
    have harith : fuel + (x :: xs).length = (fuel + xs.length) + 1 := by
      simp [List.length_cons]; omega
    rw [harith, List.cons_append, wait_loop_cons_skip cid (fuel + xs.length) x _ hx]
    exact ih hxs fuel stream

theorem wait_loop_all_skip (cid : Int) :
    ∀ (fuel : Nat) (stream : List (Option JSON)),
      (∀ x ∈ stream, skipped cid x = true) → wait_loop cid fuel stream = .timeout := by
  intro fuel
  induction fuel with
  | zero => intro stream _; rfl
  | succ n ih =>
    intro stream h
    cases stream with
    | nil =>
      have : wait_loop cid (n + 1) ([] : List (Option JSON)) = wait_loop cid n [] := rfl
      rw [this]; exact ih [] (by simp)
    | cons x rest =>
      rw [wait_loop_cons_skip cid n x rest (h x (by simp))]
      exact ih rest (fun y hy => h y (by simp [hy]))

theorem wait_loop_take (cid : Int) :
    ∀ (fuel : Nat) (stream : List (Option JSON)),
      wait_loop cid fuel stream = wait_loop cid fuel (stream.take fuel) := by
  intro fuel
  induction fuel with
  | zero => intro stream; rfl
  | succ n ih =>
    intro stream
    cases stream with
    | nil => rfl
    | cons x rest =>
      rw [List.take_succ_cons]
      cases x with
      | none =>
        show wait_loop cid n rest = wait_loop cid n (rest.take n)
        exact ih rest
      | some j =>
        by_cases hf : j.falsy = true
        · rw [wait_loop_cons_skip cid n _ rest (skipped_of_falsy cid j hf),
            wait_loop_cons_skip cid n _ (rest.take n) (skipped_of_falsy cid j hf)]
          exact ih rest
        · cases j with
          | obj kvs =>
            by_cases hid : (JSON.obj kvs).get_id cid = true
            · rw [wait_loop_found cid n kvs rest hid,
                wait_loop_found cid n kvs (rest.take n) hid]
            · have hx : skipped cid (some (JSON.obj kvs)) = true := by
                simp [skipped, Bool.eq_false_iff.mpr hid]
              rw [wait_loop_cons_skip cid n _ rest hx,
                wait_loop_cons_skip cid n _ (rest.take n) hx]
              exact ih rest
          | null => simp [JSON.falsy] at hf
          | bool b => simp [wait_loop, hf]
          | num m => simp [wait_loop, hf]
          | str t => simp [wait_loop, hf]
          | arr l => simp [wait_loop, hf]

theorem call_tool_counter (pystr : JSON → String) (s : ClientState) (inp : CallInput)
    (h : s.process = true) :
    (call_tool pystr s inp).state = ⟨true, s.rpc_id_counter + 1⟩ ∧
    (call_tool pystr s inp).allocated = some (s.rpc_id_counter + 1) := by
  obtain ⟨p, c⟩ := s
  simp only [ClientState.process] at h
  subst h
  unfold call_tool
  simp only [Bool.true_eq_false, if_false, reduceIte]
  by_cases hs : inp.send_ok = false
  · simp [hs]
  · simp only [hs, reduceIte]
    rcases hw : wait_loop (c + 1) max_attempts inp.stream with m | _ | _ <;> simp [hw]

theorem reduce_some (l : List Int) : (l.map some).reduceOption = l := by
  induction l with
  | nil => rfl
  | cons x xs ih => simp [List.reduceOption_cons_of_some, ih]

theorem alloc_run_formula (pystr : JSON → String) (inps : List CallInput) :
    ∀ (s : ClientState), s.process = true →
      alloc_run pystr s inps =
        (List.range inps.length).map
          (fun k : Nat => some (s.rpc_id_counter + 1 + (k : Int))) := by
  induction inps with
  | nil => intro s _; rfl
  | cons inp rest ih =>
    intro s h
    obtain ⟨hstate, halloc⟩ := call_tool_counter pystr s inp h
    have hrec := ih ⟨true, s.rpc_id_counter + 1⟩ rfl
    have hstep : alloc_run pystr s (inp :: rest) =
        (call_tool pystr s inp).allocated ::
          alloc_run pystr (call_tool pystr s inp).state rest := rfl
    rw [hstep, halloc, hstate, hrec]
    simp only [List.length_cons, List.range_succ_eq_map, List.map_cons, List.map_map]
    congr 1
    · norm_num
    · apply List.map_congr_left
      intro k _
      simp only [Function.comp_apply]
      congr 1
      push_cast
      ring

/-- C2: on one initialized client (fresh counter 100), any sequence of
`call_tool` invocations — including ones that fail to send or time out —
allocates identifiers 101, 102, …: pairwise distinct, strictly
increasing in invocation order, all at least 101, and never the
reserved handshake identifiers 0 or 1. -/
theorem call_ids_strictly_increasing (pystr : JSON → String) (s : ClientState)
    (inps : List CallInput) (hproc : s.process = true) (hctr : s.rpc_id_counter = 100) :
    alloc_ids pystr s inps =
      (List.range inps.length).map (fun k : Nat => 101 + (k : Int)) ∧
    (alloc_ids pystr s inps).length = inps.length ∧
    List.Chain' (· < ·) (alloc_ids pystr s inps) ∧
    (alloc_ids pystr s inps).Nodup ∧
    ∀ i ∈ alloc_ids pystr s inps, 101 ≤ i ∧ i ≠ 0 ∧ i ≠ 1 := by
  have hf := alloc_run_formula pystr inps s hproc
  rw [hctr] at hf
  have hids : alloc_ids pystr s inps =
      (List.range inps.length).map (fun k : Nat => 101 + (k : Int)) := by
    unfold alloc_ids
    rw [hf]
    have hmaps : (List.range inps.length).map
          (fun k : Nat => some ((100 : Int) + 1 + (k : Int))) =
        ((List.range inps.length).map (fun k : Nat => (101 : Int) + k)).map some := by
      rw [List.map_map]
      apply List.map_congr_left
      intro k _
      simp only [Function.comp_apply]
      norm_num
    rw [hmaps, reduce_some]
  have hpw : ((List.range inps.length).map
      (fun k : Nat => 101 + (k : Int))).Pairwise (· < ·) := by
    rw [List.pairwise_map]
    exact (List.pairwise_lt_range inps.length).imp (fun hab => by omega)
  refine ⟨hids, ?_, ?_, ?_, ?_⟩
  · rw [hids]; simp
  · rw [hids]; exact hpw.chain'
  · rw [hids]; exact hpw.imp (fun hab => ne_of_lt hab)
  · rw [hids]
    intro i hi
    rcases List.mem_map.mp hi with ⟨k, _, hk⟩
    refine ⟨by omega, by omega, by omega⟩

/-- Witness for C2 at a concrete initialized client and three calls. -/
theorem call_ids_strictly_increasing_witness :
    (⟨true, 100⟩ : ClientState).process = true ∧
    (⟨true, 100⟩ : ClientState).rpc_id_counter = 100 ∧
    alloc_ids (fun _ => "") ⟨true, 100⟩
        [⟨"a", .null, true, []⟩, ⟨"b", .null, false, []⟩, ⟨"c", .null, true, []⟩] =
      (List.range 3).map (fun k : Nat => 101 + (k : Int)) ∧
    List.Chain' (· < ·) (alloc_ids (fun _ => "") ⟨true, 100⟩
        [⟨"a", .null, true, []⟩, ⟨"b", .null, false, []⟩, ⟨"c", .null, true, []⟩]) ∧
    (alloc_ids (fun _ => "") ⟨true, 100⟩
        [⟨"a", .null, true, []⟩, ⟨"b", .null, false, []⟩, ⟨"c", .null, true, []⟩]).Nodup :=
  ⟨rfl, rfl,
    (call_ids_strictly_increasing (fun _ => "") ⟨true, 100⟩
      [⟨"a", .null, true, []⟩, ⟨"b", .null, false, []⟩, ⟨"c", .null, true, []⟩] rfl rfl).1,
    (call_ids_strictly_increasing (fun _ => "") ⟨true, 100⟩
      [⟨"a", .null, true, []⟩, ⟨"b", .null, false, []⟩, ⟨"c", .null, true, []⟩] rfl rfl).2.2.1,
    (call_ids_strictly_increasing (fun _ => "") ⟨true, 100⟩
      [⟨"a", .null, true, []⟩, ⟨"b", .null, false, []⟩, ⟨"c", .null, true, []⟩] rfl rfl).2.2.2.1⟩

/-- C7: in any client state with no live process — a fresh client
before a successful handshake, or any client after `cleanup` —
`call_tool` raises the not-initialized error, writes nothing to stdin,
allocates no identifier and leaves the state unchanged. -/
theorem uninitialized_call_fails (pystr : JSON → String) (s t : ClientState)
    (inp : CallInput) (h : s.process = false) :
    call_tool pystr s inp = ⟨s, [], none, .notInitialized⟩ ∧
    new_client.process = false ∧
    (cleanup t).process = false ∧
    call_tool pystr new_client inp = ⟨new_client, [], none, .notInitialized⟩ ∧
    call_tool pystr (cleanup t) inp = ⟨cleanup t, [], none, .notInitialized⟩ := by
  refine ⟨?_, rfl, rfl, ?_, ?_⟩
  · unfold call_tool
    rw [h]
    rfl
  · rfl
  · unfold call_tool
    rfl

/-- Witness for C7 at a concrete uninitialized state. -/
theorem uninitialized_call_fails_witness :
    call_tool (fun _ => "") ⟨false, 120⟩ ⟨"t", .null, true, []⟩ =
      ⟨⟨false, 120⟩, [], none, .notInitialized⟩ ∧
    new_client.process = false ∧
    (cleanup ⟨true, 300⟩).process = false ∧
    call_tool (fun _ => "") new_client ⟨"t", .null, true, []⟩ =
      ⟨new_client, [], none, .notInitialized⟩ ∧
    call_tool (fun _ => "") (cleanup ⟨true, 300⟩) ⟨"t", .null, true, []⟩ =
      ⟨cleanup ⟨true, 300⟩, [], none, .notInitialized⟩ :=
  uninitialized_call_fails (fun _ => "") ⟨false, 120⟩ ⟨true, 300⟩ ⟨"t", .null, true, []⟩ rfl

/-- C8: `cleanup` is idempotent and total — on a process-less state it
is the identity (a no-op), a second `cleanup` changes nothing, the
handle is cleared afterwards, and a subsequent `initialize` from a
cleaned-up client behaves exactly as from a fresh client. -/
theorem cleanup_idempotent (s t : ClientState) (sp : Bool) (st : List (Option JSON)) :
    cleanup { s with process := false } = { s with process := false } ∧
    cleanup (cleanup s) = cleanup s ∧
    (cleanup s).process = false ∧
    (init_connection (cleanup t) sp st).1.process =
      (init_connection new_client sp st).1.process ∧
    (init_connection (cleanup t) sp st).2 = (init_connection new_client sp st).2 := by
  refine ⟨rfl, rfl, rfl, ?_, ?_⟩ <;>
    · unfold init_connection
      cases sp with
      | false => rfl
      | true =>
        rcases h : init_wait_loop 20 st with u | u | _ | _ <;> simp [h]

/-- C9: a matched response that carries neither `result` nor `error`
raises the invalid-response error, and `call_tool` returns a value
only when the matched response carries `result`. -/
theorem matched_response_needs_result (pystr : JSON → String) (s : ClientState)
    (tn : String) (args : JSON) (kvs : List (String × JSON))
    (hproc : s.process = true)
    (hid : (JSON.obj kvs).get_id (s.rpc_id_counter + 1) = true)
    (herr : (JSON.obj kvs).get "error" = none)
    (hres : (JSON.obj kvs).get "result" = none) :
    (call_tool pystr s ⟨tn, args, true, [some (JSON.obj kvs)]⟩).result =
      .invalidResponse ∧
    ∀ (m w : JSON), handle_response pystr m = .ok w → (m.get "result").isSome = true := by
  constructor
  · have hw : wait_loop (s.rpc_id_counter + 1) max_attempts [some (JSON.obj kvs)] =
        .found (JSON.obj kvs) := by
      have h50 : max_attempts = 49 + 1 := rfl
      rw [h50]
      exact wait_loop_found _ 49 kvs [] hid
    unfold call_tool
    rw [hproc]
    simp only [Bool.true_eq_false, if_false, reduceIte, hw]
    unfold handle_response
    rw [herr, hres]
  · intro m w h
    unfold handle_response at h
    rcases he : m.get "error" with _ | e
    · rw [he] at h
      rcases hr : m.get "result" with _ | r
      · rw [hr] at h
        exact absurd h (by simp)
      · simp [hr]
    · rw [he] at h
      cases e <;> simp at h

/-- Witness for C9 at a concrete matched response with only an id. -/
theorem matched_response_needs_result_witness :
    (call_tool (fun _ => "") ⟨true, 100⟩
        ⟨"t", .null, true, [some (JSON.obj [("id", .num 101)])]⟩).result =
      .invalidResponse :=
  (matched_response_needs_result (fun _ => "") ⟨true, 100⟩ "t" .null
    [("id", .num 101)] rfl (by decide) rfl rfl).1

/-- C10: whenever `initialize` fails — spawn failure, handshake
timeout, server error envelope, or a malformed reply — the process
handle ends up `None` and a subsequent `call_tool` on the resulting
state fails the not-initialized check. -/
theorem failed_init_uninitialized (pystr : JSON → String) (s : ClientState)
    (sp : Bool) (st : List (Option JSON)) (inp : CallInput)
    (hfail : (init_connection s sp st).2 = none) :
    (init_connection s sp st).1.process = false ∧
    (call_tool pystr (init_connection s sp st).1 inp).result = .notInitialized := by
  have hp : (init_connection s sp st).1.process = false := by
    unfold init_connection at hfail ⊢
    cases sp with
    | false => rfl
    | true =>
      rcases h : init_wait_loop 20 st with u | u | _ | _ <;> simp [h] at hfail ⊢
  refine ⟨hp, ?_⟩
  unfold call_tool
  rw [hp]
  rfl

/-- Witness for C10: from a fresh client, `initialize` on a silent
stream times out and leaves the client unable to call tools. -/
theorem failed_init_uninitialized_witness :
    (init_connection new_client true []).2 = none ∧
    (init_connection new_client true []).1.process = false ∧
    (call_tool (fun _ => "") (init_connection new_client true []).1
        ⟨"t", .null, true, []⟩).result = .notInitialized :=
  ⟨rfl, failed_init_uninitialized (fun _ => "") new_client true [] ⟨"t", .null, true, []⟩ rfl⟩

theorem call_tool_found (pystr : JSON → String) (s : ClientState) (tn : String)
    (args : JSON) (stream : List (Option JSON)) (kvs : List (String × JSON))
    (hproc : s.process = true)
    (hw : wait_loop (s.rpc_id_counter + 1) max_attempts stream = .found (JSON.obj kvs)) :
    call_tool pystr s ⟨tn, args, true, stream⟩ =
      ⟨⟨true, s.rpc_id_counter + 1⟩, [rpc_call_msg (s.rpc_id_counter + 1) tn args],
        some (s.rpc_id_counter + 1), handle_response pystr (JSON.obj kvs)⟩ := by
  obtain ⟨p, c⟩ := s
  simp only [ClientState.process] at hproc
  subst hproc
  simp only [ClientState.rpc_id_counter] at hw
  simp [call_tool, hw]

theorem call_tool_timed_out (pystr : JSON → String) (s : ClientState) (tn : String)
    (args : JSON) (stream : List (Option JSON))
    (hproc : s.process = true)
    (hw : wait_loop (s.rpc_id_counter + 1) max_attempts stream = .timeout) :
    call_tool pystr s ⟨tn, args, true, stream⟩ =
      ⟨⟨true, s.rpc_id_counter + 1⟩, [rpc_call_msg (s.rpc_id_counter + 1) tn args],
        some (s.rpc_id_counter + 1), .timeout⟩ := by
  obtain ⟨p, c⟩ := s
  simp only [ClientState.process] at hproc
  subst hproc
  simp only [ClientState.rpc_id_counter] at hw
  simp [call_tool, hw]

theorem call_tool_stream_congr (pystr : JSON → String) (s : ClientState) (tn : String)
    (args : JSON) (st1 st2 : List (Option JSON))
    (h : wait_loop (s.rpc_id_counter + 1) max_attempts st1 =
      wait_loop (s.rpc_id_counter + 1) max_attempts st2) :
    call_tool pystr s ⟨tn, args, true, st1⟩ = call_tool pystr s ⟨tn, args, true, st2⟩ := by
  unfold call_tool
  by_cases hp : s.process = false
  · rw [hp]; rfl
  · simp only [hp, reduceIte, if_false]
    rw [h]

/-- C1 (amended): on an initialized connection, if fewer unrelated
inbound reads than the 50-attempt poll budget precede the matching
response, `call_tool` skips every unrelated read, behaves exactly as
if the stream had started at the matching response, and returns the
handling of that response.  (Each unrelated read does consume one poll
attempt, so the bound on their number is necessary.) -/
theorem call_skips_unrelated (pystr : JSON → String) (s : ClientState)
    (tn : String) (args : JSON) (noise : List (Option JSON))
    (kvs : List (String × JSON)) (rest : List (Option JSON))
    (hproc : s.process = true)
    (hnoise : ∀ x ∈ noise, skipped (s.rpc_id_counter + 1) x = true)
    (hK : noise.length < max_attempts)
    (hid : (JSON.obj kvs).get_id (s.rpc_id_counter + 1) = true) :
    call_tool pystr s ⟨tn, args, true, noise ++ some (JSON.obj kvs) :: rest⟩ =
      call_tool pystr s ⟨tn, args, true, some (JSON.obj kvs) :: rest⟩ ∧
    (call_tool pystr s ⟨tn, args, true, noise ++ some (JSON.obj kvs) :: rest⟩).result =
      handle_response pystr (JSON.obj kvs) := by
  have hw1 : wait_loop (s.rpc_id_counter + 1) max_attempts
      (noise ++ some (JSON.obj kvs) :: rest) = .found (JSON.obj kvs) := by
    obtain ⟨f, hf⟩ : ∃ f, max_attempts = (f + 1) + noise.length :=
      ⟨max_attempts - 1 - noise.length, by unfold max_attempts at hK ⊢; omega⟩
    rw [hf, wait_loop_skip _ noise hnoise (f + 1) _, wait_loop_found _ f kvs rest hid]
  have hw2 : wait_loop (s.rpc_id_counter + 1) max_attempts
      (some (JSON.obj kvs) :: rest) = .found (JSON.obj kvs) := by
    have h50 : max_attempts = 49 + 1 := rfl
    rw [h50]
    exact wait_loop_found _ 49 kvs rest hid
  rw [call_tool_found pystr s tn args _ kvs hproc hw1,
    call_tool_found pystr s tn args _ kvs hproc hw2]
  exact ⟨rfl, rfl⟩

/-- Witness for C1 (amended): one wrong-id message before the match. -/
theorem call_skips_unrelated_witness :
    call_tool (fun _ => "") ⟨true, 100⟩
        ⟨"t", .null, true, [some (JSON.obj [("id", .num 1)]),
          some (JSON.obj [("id", .num 101), ("result", .num 5)])]⟩ =
      call_tool (fun _ => "") ⟨true, 100⟩
        ⟨"t", .null, true, [some (JSON.obj [("id", .num 101), ("result", .num 5)])]⟩ ∧
    (call_tool (fun _ => "") ⟨true, 100⟩
        ⟨"t", .null, true, [some (JSON.obj [("id", .num 1)]),
          some (JSON.obj [("id", .num 101), ("result", .num 5)])]⟩).result =
      handle_response (fun _ => "") (JSON.obj [("id", .num 101), ("result", .num 5)]) :=
  call_skips_unrelated (fun _ => "") ⟨true, 100⟩ "t" .null
    [some (JSON.obj [("id", .num 1)])] [("id", .num 101), ("result", .num 5)] []
    rfl (by decide) (by decide) (by decide)

/-- Counterexample to C1 as stated: fifty unrelated wrong-id messages
followed by the true matching response make `call_tool` time out —
the unrelated messages are not without effect, each consumes one of
the 50 poll attempts — even though the matching response carries a
result the handler would have returned. -/
theorem call_skips_unrelated_ctrex :
    (call_tool (fun _ => "") ⟨true, 100⟩
        ⟨"t", .null, true,
          List.replicate 50 (some (JSON.obj [("id", .num 1)])) ++
            [some (JSON.obj [("id", .num 101), ("result", .num 5)])]⟩).result =
      .timeout ∧
    handle_response (fun _ => "")
        (JSON.obj [("id", .num 101), ("result", .num 5)]) = .ok (.num 5) :=
  ⟨rfl, rfl⟩

/-- C3 (amended): on an initialized connection, if every inbound read
is skippable — no line, a falsy value, or a message object whose id
differs from the call's identifier — then `call_tool` raises the
timeout error, and on any stream at all it never inspects more than
the 50-read budget.  (A truthy non-object JSON line instead raises an
attribute error before the budget is exhausted, see the
counterexample.) -/
theorem call_timeout_bound (pystr : JSON → String) (s : ClientState)
    (tn : String) (args : JSON) (stream : List (Option JSON))
    (hproc : s.process = true)
    (hskip : ∀ x ∈ stream, skipped (s.rpc_id_counter + 1) x = true) :
    (call_tool pystr s ⟨tn, args, true, stream⟩).result = .timeout ∧
    (∀ stream' : List (Option JSON),
      call_tool pystr s ⟨tn, args, true, stream'⟩ =
        call_tool pystr s ⟨tn, args, true, stream'.take max_attempts⟩) := by
  constructor
  · have hw : wait_loop (s.rpc_id_counter + 1) max_attempts stream = .timeout :=
      wait_loop_all_skip _ _ _ hskip
    rw [call_tool_timed_out pystr s tn args stream hproc hw]
  · intro stream'
    exact call_tool_stream_congr pystr s tn args _ _
      (wait_loop_take (s.rpc_id_counter + 1) max_attempts stream')

/-- Witness for C3 (amended): a silent stream times out. -/
theorem call_timeout_bound_witness :
    (call_tool (fun _ => "") ⟨true, 100⟩
        ⟨"t", .null, true, [none, some (JSON.obj [("id", .num 7)])]⟩).result =
      .timeout :=
  (call_timeout_bound (fun _ => "") ⟨true, 100⟩ "t" .null
    [none, some (JSON.obj [("id", .num 7)])] rfl (by decide)).1

/-- Counterexample to C3 as stated: a single truthy non-object inbound
line (the JSON value 5) carries no id at all, yet `call_tool` raises
an `AttributeError` at `msg.get("id")` instead of the claimed timeout
error. -/
theorem call_timeout_bound_ctrex :
    (call_tool (fun _ => "") ⟨true, 100⟩
        ⟨"t", .null, true, [some (JSON.num 5)]⟩).result = .attrError ∧
    (call_tool (fun _ => "") ⟨true, 100⟩
        ⟨"t", .null, true, [some (JSON.num 5)]⟩).result ≠ .timeout := by
  have hval : (call_tool (fun _ => "") ⟨true, 100⟩
      ⟨"t", .null, true, [some (JSON.num 5)]⟩).result = CallRes.attrError := rfl
  refine ⟨hval, ?_⟩
  rw [hval]
  intro h
  exact CallRes.noConfusion h

theorem handle_response_content (pystr : JSON → String) (x : Int) (items : List JSON) :
    handle_response pystr (JSON.obj [("id", JSON.num x),
        ("result", JSON.obj [("content", JSON.arr items)])]) =
      (if items.length > 0 then
        match join_content pystr items with
        | some s => CallRes.ok (JSON.str s)
        | none => CallRes.typeError
      else CallRes.ok (JSON.arr items)) := rfl

theorem get_id_result_content (x : Int) (r : JSON) :
    (JSON.obj [("id", JSON.num x), ("result", r)]).get_id x = true := by
  simp [JSON.get_id, JSON.get, id_matches]

/-- C4 (amended): a matched tool-call result whose `content` field is
the empty sequence is returned by `call_tool` as that empty sequence
itself (the empty list), not as the empty string: the non-empty-list
guard sends it to the `return content` branch. -/
theorem empty_content_returns_list (pystr : JSON → String) (s : ClientState)
    (tn : String) (args : JSON) (hproc : s.process = true) :
    (call_tool pystr s ⟨tn, args, true,
        [some (JSON.obj [("id", .num (s.rpc_id_counter + 1)),
          ("result", JSON.obj [("content", JSON.arr [])])])]⟩).result =
      .ok (.arr []) := by
  have hw : wait_loop (s.rpc_id_counter + 1) max_attempts
      [some (JSON.obj [("id", JSON.num (s.rpc_id_counter + 1)),
        ("result", JSON.obj [("content", JSON.arr [])])])] =
      .found (JSON.obj [("id", JSON.num (s.rpc_id_counter + 1)),
        ("result", JSON.obj [("content", JSON.arr [])])]) := by
    have h50 : max_attempts = 49 + 1 := rfl
    rw [h50]
    exact wait_loop_found _ 49 _ [] (get_id_result_content _ _)
  rw [call_tool_found pystr s tn args _ _ hproc hw]
  rfl

/-- Witness for C4 (amended) at a concrete client. -/
theorem empty_content_returns_list_witness :
    (call_tool (fun _ => "") ⟨true, 100⟩
        ⟨"t", .null, true, [some (JSON.obj [("id", .num 101),
          ("result", JSON.obj [("content", JSON.arr [])])])]⟩).result =
      .ok (.arr []) :=
  empty_content_returns_list (fun _ => "") ⟨true, 100⟩ "t" .null rfl

/-- Counterexample to C4 as stated: on `{"content": []}` the call
returns the empty list, which is not the empty string. -/
theorem empty_content_ctrex :
    (call_tool (fun _ => "") ⟨true, 100⟩
        ⟨"t", .null, true, [some (JSON.obj [("id", .num 101),
          ("result", JSON.obj [("content", JSON.arr [])])])]⟩).result =
      .ok (.arr []) ∧
    (call_tool (fun _ => "") ⟨true, 100⟩
        ⟨"t", .null, true, [some (JSON.obj [("id", .num 101),
          ("result", JSON.obj [("content", JSON.arr [])])])]⟩).result ≠
      .ok (.str "") := by
  have hval : (call_tool (fun _ => "") ⟨true, 100⟩
      ⟨"t", .null, true, [some (JSON.obj [("id", .num 101),
        ("result", JSON.obj [("content", JSON.arr [])])])]⟩).result =
      CallRes.ok (JSON.arr []) := rfl
  refine ⟨hval, ?_⟩
  rw [hval]
  intro h
  injection h with h1
  exact JSON.noConfusion h1

/-- C5: a matched tool-call result with a non-empty `content` sequence
is normalized item by item — direct `text` field, else the `text`
field of a dict-valued `raw` field, else the item when it is a plain
string, else its textual coercion — and the extracted texts are joined
with a blank-line separator. -/
theorem content_items_joined (pystr : JSON → String) (s : ClientState)
    (tn : String) (args : JSON) (items : List JSON) (texts : List String)
    (hproc : s.process = true)
    (hne : items.length > 0)
    (htexts : (items.map (item_piece pystr)).mapM as_str = some texts) :
    (call_tool pystr s ⟨tn, args, true,
        [some (JSON.obj [("id", .num (s.rpc_id_counter + 1)),
          ("result", JSON.obj [("content", JSON.arr items)])])]⟩).result =
      .ok (.str (String.intercalate "\n\n" texts)) := by
  have hw : wait_loop (s.rpc_id_counter + 1) max_attempts
      [some (JSON.obj [("id", JSON.num (s.rpc_id_counter + 1)),
        ("result", JSON.obj [("content", JSON.arr items)])])] =
      .found (JSON.obj [("id", JSON.num (s.rpc_id_counter + 1)),
        ("result", JSON.obj [("content", JSON.arr items)])]) := by
    have h50 : max_attempts = 49 + 1 := rfl
    rw [h50]
    exact wait_loop_found _ 49 _ [] (get_id_result_content _ _)
  rw [call_tool_found pystr s tn args _ _ hproc hw]
  have hj : join_content pystr items = some (String.intercalate "\n\n" texts) := by
    unfold join_content
    rw [htexts]
    rfl
  rw [handle_response_content, if_pos hne, hj]

/-- Witness for C5 on the reference example
`[{"text":"a"}, {"raw":{"text":"b"}}, "c"]`, joined to
`"a\n\nb\n\nc"`. -/
theorem content_items_joined_witness :
    (([JSON.obj [("text", .str "a")],
        JSON.obj [("raw", JSON.obj [("text", .str "b")])],
        JSON.str "c"].map (item_piece (fun _ => ""))).mapM as_str =
      some ["a", "b", "c"]) ∧
    (call_tool (fun _ => "") ⟨true, 100⟩
        ⟨"t", .null, true, [some (JSON.obj [("id", .num 101),
          ("result", JSON.obj [("content", JSON.arr
            [JSON.obj [("text", .str "a")],
             JSON.obj [("raw", JSON.obj [("text", .str "b")])],
             JSON.str "c"])])])]⟩).result =
      .ok (.str "a\n\nb\n\nc") := by
  refine ⟨rfl, ?_⟩
  have h := content_items_joined (fun _ => "") ⟨true, 100⟩ "t" .null
    [JSON.obj [("text", .str "a")],
     JSON.obj [("raw", JSON.obj [("text", .str "b")])],
     JSON.str "c"] ["a", "b", "c"] rfl (by decide) rfl
  exact h.trans rfl

/-- C6: a line that is not well-formed JSON makes `_read_json_line`
return `None` without raising; that `None` never satisfies the pending
wait, and a later well-formed response with the awaited identifier
still completes the call with its handled result. -/
theorem malformed_line_resilient (parse : String → Option JSON)
    (pystr : JSON → String) (s : ClientState) (tn : String) (args : JSON)
    (line : String) (kvs : List (String × JSON))
    (hbad : parse line.trim = none)
    (hproc : s.process = true)
    (hid : (JSON.obj kvs).get_id (s.rpc_id_counter + 1) = true) :
    read_json_line parse true (some line) = none ∧
    (call_tool pystr s ⟨tn, args, true,
        [read_json_line parse true (some line), some (JSON.obj kvs)]⟩).result =
      handle_response pystr (JSON.obj kvs) := by
  have h1 : read_json_line parse true (some line) = none := by
    unfold read_json_line
    simp [hbad]
  refine ⟨h1, ?_⟩
  rw [h1]
  have hw : wait_loop (s.rpc_id_counter + 1) max_attempts
      [none, some (JSON.obj kvs)] = .found (JSON.obj kvs) := by
    have h50 : max_attempts = (48 + 1) + 1 := rfl
    rw [h50, wait_loop_cons_skip _ (48 + 1) none _ rfl,
      wait_loop_found _ 48 kvs [] hid]
  rw [call_tool_found pystr s tn args _ kvs hproc hw]

/-- Witness for C6: an unparsable line, then the matching response. -/
theorem malformed_line_resilient_witness :
    read_json_line (fun _ => none) true (some "not json") = none ∧
    (call_tool (fun _ => "") ⟨true, 100⟩
        ⟨"t", .null, true, [read_json_line (fun _ => none) true (some "not json"),
          some (JSON.obj [("id", .num 101), ("result", .str "done")])]⟩).result =
      .ok (.str "done") := by
  have h := malformed_line_resilient (fun _ => none) (fun _ => "") ⟨true, 100⟩
    "t" .null "not json" [("id", .num 101), ("result", .str "done")]
    rfl rfl (by decide)
  exact ⟨h.1, h.2.trans rfl⟩
